import Mathlib

/-!
Shallow embedding of `src/index.ts` of the gemini-openai-proxy repository.

The source is a small HTTP relay with two handlers:
 - `GET /v1/models`: fetches the upstream model list and strips a
   `"models/"` namespace from each name via `String.prototype.replace`
   (which replaces the first occurrence);
 - `POST /v1/chat/completions`: builds an upstream generation request
   (defaulting `model`, `prompt`, `mimeType` with JavaScript `||`,
   appending an inline-data part when `inlineData` is truthy), calls the
   upstream API, and reshapes the response into an OpenAI-style object.

Nondeterministic inputs of the source (the random unique id, the current
time, the process-wide API key, and the HTTP transport) are passed as
explicit parameters.  Upstream HTTP calls are recorded in the result so
that "no call was made" is statable.
-/

namespace GeminiProxy

/-! ## JavaScript-level helpers -/

/-- JavaScript `v || d` for an optional string field of a JSON body:
`undefined`/`null` and the empty string are falsy and give the default. -/
def jsOr (v : Option String) (d : String) : String :=
  match v with
  | none => d
  | some s => if s = "" then d else s

/-- A JSON value acceptable to `Buffer.from`: either a string or an array
of numbers (raw bytes). -/
inductive InlineData where
  | str (s : String)
  | bytes (bs : List Nat)
  deriving DecidableEq

/-- JavaScript truthiness of an `inlineData` value: a string is truthy iff
nonempty; an array (object) is always truthy, even when empty. -/
def InlineData.truthy : InlineData → Bool
  | .str s => s ≠ ""
  | .bytes _ => true

/-- UTF-8 encoding of one character (as `Buffer.from(string)` performs). -/
def utf8EncodeChar (c : Char) : List Nat :=
  let n := c.toNat
  if n < 128 then [n]
  else if n < 2048 then [192 + n / 64, 128 + n % 64]
  else if n < 65536 then [224 + n / 4096, 128 + (n / 64) % 64, 128 + n % 64]
  else [240 + n / 262144, 128 + (n / 4096) % 64, 128 + (n / 64) % 64, 128 + n % 64]

/-- UTF-8 encoding of a string. -/
def utf8Encode (s : String) : List Nat :=
  s.data.flatMap utf8EncodeChar

/-- `Buffer.from` on an `inlineData` value: a string is UTF-8 encoded; an
array of numbers is truncated to bytes (each value modulo 256). -/
def bufferFrom : InlineData → List Nat
  | .str s => utf8Encode s
  | .bytes bs => bs.map (fun b => b % 256)

/-- Character of a 6-bit value in the standard base64 alphabet. -/
def base64Char (n : Nat) : Char :=
  if n < 26 then Char.ofNat (65 + n)
  else if n < 52 then Char.ofNat (97 + (n - 26))
  else if n < 62 then Char.ofNat (48 + (n - 52))
  else if n = 62 then '+'
  else '/'

/-- Standard base64 with padding, as `Buffer.prototype.toString("base64")`. -/
def base64Encode : List Nat → String
  | [] => ""
  | [b0] =>
      String.mk [base64Char (b0 / 4), base64Char (b0 % 4 * 16), '=', '=']
  | [b0, b1] =>
      String.mk [base64Char (b0 / 4), base64Char (b0 % 4 * 16 + b1 / 16),
        base64Char (b1 % 16 * 4), '=']
  | b0 :: b1 :: b2 :: rest =>
      String.mk [base64Char (b0 / 4), base64Char (b0 % 4 * 16 + b1 / 16),
        base64Char (b1 % 16 * 4 + b2 / 64), base64Char (b2 % 64)] ++ base64Encode rest

/-! ## Data model (`src/index.ts` type definitions and JSON shapes) -/

/-- The `inline_data` member of a `ContentPart`. -/
structure InlineDataPart where
  mime_type : String
  data : String
  deriving DecidableEq

/-- `ContentPart` of the source: optional `text`, optional `inline_data`. -/
structure ContentPart where
  text : Option String := none
  inline_data : Option InlineDataPart := none
  deriving DecidableEq

/-- `Content` of the source: a list of parts. -/
structure Content where
  parts : List ContentPart
  deriving DecidableEq

/-- The JSON body accepted by `POST /v1/chat/completions`
(`CompletionRequest` in the specification): every field may be absent. -/
structure CompletionRequest where
  model : Option String := none
  prompt : Option String := none
  mimeType : Option String := none
  inlineData : Option InlineData := none
  deriving DecidableEq

/-- One part of an upstream candidate's content (the upstream response
side); only its optional `text` field is read by the source. -/
structure UContentPart where
  text : Option String := none
  deriving DecidableEq

/-- Content of one upstream candidate. -/
structure UContent where
  parts : List UContentPart
  deriving DecidableEq

/-- One upstream candidate: content parts and a finish reason. -/
structure UCandidate where
  content : UContent
  finishReason : String
  deriving DecidableEq

/-- Upstream `usageMetadata` token counts. -/
structure UsageMetadata where
  promptTokenCount : Nat
  candidatesTokenCount : Nat
  totalTokenCount : Nat
  deriving DecidableEq

/-- Upstream generation response as read by the source. -/
structure GeminiResponse where
  candidates : List UCandidate
  usageMetadata : UsageMetadata
  deriving DecidableEq

/-- One entry of the upstream model list; only `name` is read. -/
structure GeminiModel where
  name : String
  deriving DecidableEq

/-- Upstream model-list response as read by the source. -/
structure ModelsResponse where
  models : List GeminiModel
  deriving DecidableEq

/-- `usage` object of the output. -/
structure Usage where
  prompt_tokens : Nat
  completion_tokens : Nat
  total_tokens : Nat
  deriving DecidableEq

/-- `message` object of one output choice; `refusal` is written as JSON
null, embedded as an always-`none` option. -/
structure Message where
  role : String
  content : String
  refusal : Option String
  deriving DecidableEq

/-- One output choice; `logprobs` is written as JSON null. -/
structure Choice where
  index : Nat
  message : Message
  logprobs : Option Nat
  finish_reason : String
  deriving DecidableEq

/-- The OpenAI-style completion object produced by the source. -/
structure CompletionResponse where
  id : String
  object : String
  created : Nat
  model : String
  choices : List Choice
  usage : Usage
  system_fingerprint : String
  deriving DecidableEq

/-! ## Errors and HTTP layer shapes -/

/-- The two error kinds thrown by the source, with their messages. -/
inductive ProxyError where
  | configurationError (msg : String)
  | upstreamError (msg : String)
  deriving DecidableEq

/-- Body of an HTTP response produced by the two handlers. -/
inductive ResponseBody where
  | modelList (names : List String)
  | completion (resp : CompletionResponse)
  | errorMessage (msg : String)
  deriving DecidableEq

/-- An HTTP response: status code and JSON body. -/
structure HttpResponse where
  status : Nat
  body : ResponseBody
  deriving DecidableEq

/-- Record of one upstream generation call made through the transport. -/
structure UpstreamCall where
  model : String
  contents : List Content
  deriving DecidableEq

/-! ## String helpers mirroring the JavaScript methods used -/

/-- Lowercasing of one character as `String.prototype.toLowerCase` acts on
the ASCII range (the provider's finish-reason enum values are ASCII). -/
def charToLower (c : Char) : Char :=
  if 'A' ≤ c ∧ c ≤ 'Z' then Char.ofNat (c.toNat + 32) else c

/-- `s.toLowerCase()` on ASCII strings. -/
def stringToLower (s : String) : String :=
  String.mk (s.data.map charToLower)

/-- Boolean prefix test on character lists. -/
def listIsPrefixOf : List Char → List Char → Bool
  | [], _ => true
  | _ :: _, [] => false
  | a :: as, b :: bs => a == b && listIsPrefixOf as bs

/-- Whether `pat` occurs as a contiguous sublist somewhere in the list. -/
def hasOccurrence (pat : List Char) : List Char → Bool
  | [] => listIsPrefixOf pat []
  | c :: cs => listIsPrefixOf pat (c :: cs) || hasOccurrence pat cs

/-- Remove the first occurrence of `pat`, scanning left to right: the
semantics of JavaScript `String.prototype.replace(pat, "")` with a string
pattern. -/
def listReplaceFirst : List Char → List Char → List Char
  | [], _ => []
  | c :: cs, pat =>
      if listIsPrefixOf pat (c :: cs) then (c :: cs).drop pat.length
      else c :: listReplaceFirst cs pat

/-- `name.replace(pat, "")` of JavaScript: removes the first occurrence of
`pat` anywhere in `name`; leaves `name` unchanged when `pat` does not
occur. -/
def stringReplaceFirst (s pat : String) : String :=
  String.mk (listReplaceFirst s.data pat.data)

/-! ## Model Lister (`/v1/models` handler, lines 32–44) -/

/-- The mapping the `/v1/models` handler applies to the upstream response:
`models.models.map(model => model.name.replace("models/", ""))`. -/
def modelNamesOf (resp : ModelsResponse) : List String :=
  resp.models.map (fun m => stringReplaceFirst m.name "models/")

/-- Modelled from the claim's words, for comparison with the source: remove
exactly the leading `"models/"` namespace segment when present, otherwise
leave the identifier unchanged. -/
def stripLeadingModelsSegment (name : String) : String :=
  if listIsPrefixOf "models/".data name.data then
    String.mk (name.data.drop "models/".data.length)
  else name

/-- `getGeminiModels` (lines 136–153): fails with the configuration error
before any call when the key is empty; otherwise makes exactly one
transport call, converting a transport failure into the upstream error.
The second component counts transport calls made. -/
def getGeminiModels (apiKey : String) (transport : Except String ModelsResponse) :
    Except ProxyError ModelsResponse × Nat :=
  if apiKey = "" then
    (.error (.configurationError "GOOGLE_API_KEY environment variable is not set"), 0)
  else
    match transport with
    | .ok r => (.ok r, 1)
    | .error _ => (.error (.upstreamError "Failed to fetch Gemini models"), 1)

/-- The `GET /v1/models` handler (lines 32–44): 200 with the stripped name
list on success, 500 with the fixed message on any caught error. -/
def handleGetModels (apiKey : String) (transport : Except String ModelsResponse) :
    HttpResponse :=
  match (getGeminiModels apiKey transport).1 with
  | .ok resp => ⟨200, .modelList (modelNamesOf resp)⟩
  | .error _ => ⟨500, .errorMessage "Failed to fetch Gemini models"⟩

/-! ## Completion Translator (`generateGeminiResponse`, lines 57–111) -/

/-- Line 59: `const model = data.model || "gemini-1.5-flash"`. -/
def resolvedModel (data : CompletionRequest) : String :=
  jsOr data.model "gemini-1.5-flash"

/-- Line 60: `const prompt = data.prompt || "No prompt provided"`. -/
def resolvedPrompt (data : CompletionRequest) : String :=
  jsOr data.prompt "No prompt provided"

/-- Line 61: `const mimeType = data.mimeType || "text/plain"`. -/
def resolvedMimeType (data : CompletionRequest) : String :=
  jsOr data.mimeType "text/plain"

/-- Lines 64–81: the contents array starts as one block with one text part
holding the prompt; when `inlineData` is truthy a second part with the
mime type and base64 payload is pushed onto the same block. -/
def buildContents (data : CompletionRequest) : List Content :=
  let textPart : ContentPart := { text := some (resolvedPrompt data) }
  let parts :=
    match data.inlineData with
    | some d =>
        if d.truthy then
          [textPart,
           { inline_data := some ⟨resolvedMimeType data, base64Encode (bufferFrom d)⟩ }]
        else [textPart]
    | none => [textPart]
  [⟨parts⟩]

/-- `getGeminiTextGeneration` (lines 113–134): fails with the configuration
error before any call when the key is empty; otherwise makes exactly one
transport call with `(model, contents)`, converting a transport failure
into the upstream error.  The second component is the trace of transport
calls made. -/
def getGeminiTextGeneration (apiKey : String)
    (transport : String → List Content → Except String GeminiResponse)
    (model : String) (contents : List Content) :
    Except ProxyError GeminiResponse × List UpstreamCall :=
  if apiKey = "" then
    (.error (.configurationError "GOOGLE_API_KEY environment variable is not set"), [])
  else
    match transport model contents with
    | .ok r => (.ok r, [⟨model, contents⟩])
    | .error _ => (.error (.upstreamError "Failed to generate text"), [⟨model, contents⟩])

/-- Line 95: `candidate.content.parts.map(part => part.text).join("")` —
`join` renders the `undefined` of a textless part as the empty string. -/
def joinTexts : List UContentPart → String
  | [] => ""
  | p :: ps => p.text.getD "" ++ joinTexts ps

/-- Concatenation of only the text parts, in order and with no separator:
the specification's description of a choice's `content`. -/
def textPartsConcat : List UContentPart → String
  | [] => ""
  | p :: ps =>
      match p.text with
      | some t => t ++ textPartsConcat ps
      | none => textPartsConcat ps

/-- Lines 91–100: `candidates.map((candidate, index) => ...)`, carried out
with an explicit running index. -/
def buildChoices (i : Nat) : List UCandidate → List Choice
  | [] => []
  | c :: rest =>
      { index := i,
        message :=
          { role := "assistant",
            content := joinTexts c.content.parts,
            refusal := none },
        logprobs := none,
        finish_reason := stringToLower c.finishReason } :: buildChoices (i + 1) rest

/-- Lines 85–107: the transformed response object built from the upstream
response; `uniqueId` stands for `generateUniqueId()` and `now` for
`Math.floor(Date.now() / 1000)`. -/
def transformResponse (uniqueId : String) (now : Nat) (model : String)
    (g : GeminiResponse) : CompletionResponse :=
  { id := "chatcmpl-" ++ uniqueId,
    object := "chat.completion",
    created := now,
    model := model,
    choices := buildChoices 0 g.candidates,
    usage :=
      { prompt_tokens := g.usageMetadata.promptTokenCount,
        completion_tokens := g.usageMetadata.candidatesTokenCount,
        total_tokens := g.usageMetadata.totalTokenCount },
    system_fingerprint := "fp_3aa7262c27" }

/-- `generateGeminiResponse` (lines 57–111): resolve defaults, build the
contents, call the upstream client, and transform the result. -/
def generateGeminiResponse (apiKey : String)
    (transport : String → List Content → Except String GeminiResponse)
    (uniqueId : String) (now : Nat) (data : CompletionRequest) :
    Except ProxyError CompletionResponse × List UpstreamCall :=
  match getGeminiTextGeneration apiKey transport (resolvedModel data) (buildContents data) with
  | (.ok g, calls) => (.ok (transformResponse uniqueId now (resolvedModel data) g), calls)
  | (.error e, calls) => (.error e, calls)

/-- The `POST /v1/chat/completions` handler (lines 46–55): 200 with the
transformed response on success, 500 with the fixed message on any caught
error. -/
def handleChatCompletions (apiKey : String)
    (transport : String → List Content → Except String GeminiResponse)
    (uniqueId : String) (now : Nat) (body : CompletionRequest) : HttpResponse :=
  match (generateGeminiResponse apiKey transport uniqueId now body).1 with
  | .ok resp => ⟨200, .completion resp⟩
  | .error _ => ⟨500, .errorMessage "Failed to generate response"⟩

/-! ## Concrete fixtures used by witness theorems -/

/-- A request carrying only raw bytes. -/
def reqBytes : CompletionRequest := { inlineData := some (.bytes [0, 255]) }

/-- A request whose `inlineData` is a present but empty string. -/
def reqEmptyStr : CompletionRequest := { inlineData := some (.str "") }

/-- A request whose `inlineData` is a present but empty byte array. -/
def reqEmptyBytes : CompletionRequest := { inlineData := some (.bytes []) }

/-- A concrete upstream generation response with one candidate. -/
def gResp0 : GeminiResponse := ⟨[⟨⟨[⟨some "Hi"⟩]⟩, "STOP"⟩], ⟨1, 2, 3⟩⟩

/-- A generation transport that always succeeds with `gResp0`. -/
def trG0 : String → List Content → Except String GeminiResponse :=
  fun _ _ => .ok gResp0

/-- A model-list transport that always succeeds with an empty list. -/
def trM0 : Except String ModelsResponse := .ok ⟨[]⟩

/-! ## Helper lemmas -/

theorem string_empty_append (s : String) : "" ++ s = s := by
  cases s
  rfl

theorem joinTexts_eq_textPartsConcat (parts : List UContentPart) :
    joinTexts parts = textPartsConcat parts := by
  induction parts with
  | nil => rfl
  | cons p ps ih =>
    cases hp : p.text with
    | none => simp [joinTexts, textPartsConcat, hp, ih, string_empty_append]
    | some t => simp [joinTexts, textPartsConcat, hp, ih]

theorem joinTexts_append (l1 l2 : List UContentPart) :
    joinTexts (l1 ++ l2) = joinTexts l1 ++ joinTexts l2 := by
  induction l1 with
  | nil => simp [joinTexts, string_empty_append]
  | cons p ps ih => simp [joinTexts, ih, String.append_assoc]

theorem buildChoices_length (i : Nat) (cands : List UCandidate) :
    (buildChoices i cands).length = cands.length := by
  induction cands generalizing i with
  | nil => rfl
  | cons c rest ih => simp [buildChoices, ih]

theorem buildChoices_content_map (i : Nat) (cands : List UCandidate) :
    (buildChoices i cands).map (fun ch => ch.message.content) =
      cands.map (fun c => joinTexts c.content.parts) := by
  induction cands generalizing i with
  | nil => rfl
  | cons c rest ih => simp [buildChoices, ih]

theorem buildChoices_null_fields (i : Nat) (cands : List UCandidate) :
    ∀ ch ∈ buildChoices i cands, ch.message.refusal = none ∧ ch.logprobs = none := by
  induction cands generalizing i with
  | nil => intro ch hch; simp [buildChoices] at hch
  | cons c rest ih =>
    intro ch hch
    rcases List.mem_cons.mp hch with h | h
    · subst h; exact ⟨rfl, rfl⟩
    · exact ih (i + 1) ch h

theorem map_mod_eq_self (bs : List Nat) (h : ∀ b ∈ bs, b < 256) :
    bs.map (fun b => b % 256) = bs := by
  induction bs with
  | nil => rfl
  | cons b rest ih =>
    simp only [List.map_cons]
    rw [Nat.mod_eq_of_lt (h b (by simp)), ih (fun x hx => h x (by simp [hx]))]

theorem listReplaceFirst_of_isPrefixOf (s pat : List Char)
    (h : listIsPrefixOf pat s = true) :
    listReplaceFirst s pat = s.drop pat.length := by
  cases s with
  | nil => simp [listReplaceFirst]
  | cons c cs => simp [listReplaceFirst, h]

theorem listReplaceFirst_of_no_occurrence (s pat : List Char)
    (h : hasOccurrence pat s = false) :
    listReplaceFirst s pat = s := by
  induction s with
  | nil => rfl
  | cons c cs ih =>
    rw [hasOccurrence, Bool.or_eq_false_iff] at h
    simp [listReplaceFirst, h.1, ih h.2]

theorem generate_calls (apiKey uniqueId : String) (now : Nat)
    (transport : String → List Content → Except String GeminiResponse)
    (data : CompletionRequest) (hkey : apiKey ≠ "") :
    (generateGeminiResponse apiKey transport uniqueId now data).2 =
      [⟨resolvedModel data, buildContents data⟩] := by
  unfold generateGeminiResponse getGeminiTextGeneration
  rw [if_neg hkey]
  cases transport (resolvedModel data) (buildContents data) <;> rfl

/-! ## Claim theorems -/

/-- C1: for every valid `CompletionRequest` (with a non-empty API key, so
that the call is made), `generateGeminiResponse` sends upstream exactly one
content block whose first part is a text part holding the possibly
defaulted prompt; the block has exactly one part when `inlineData` is
absent, and exactly two parts when raw-byte `inlineData` is present, the
second carrying the base64 encoding of the given bytes and the
given-or-default mime type. -/
theorem generateCompletion_upstream_contents_shape (apiKey uniqueId : String)
    (now : Nat) (transport : String → List Content → Except String GeminiResponse)
    (data : CompletionRequest) (hkey : apiKey ≠ "") :
    (data.inlineData = none →
      (generateGeminiResponse apiKey transport uniqueId now data).2 =
        [⟨resolvedModel data, [⟨[⟨some (resolvedPrompt data), none⟩]⟩]⟩]) ∧
    (∀ bs, data.inlineData = some (.bytes bs) → (∀ b ∈ bs, b < 256) →
      (generateGeminiResponse apiKey transport uniqueId now data).2 =
        [⟨resolvedModel data,
          [⟨[⟨some (resolvedPrompt data), none⟩,
             ⟨none, some ⟨resolvedMimeType data, base64Encode bs⟩⟩]⟩]⟩]) := by
  constructor
  · intro h
    rw [generate_calls apiKey uniqueId now transport data hkey]
    simp [buildContents, h]
  · intro bs hbs h256
    rw [generate_calls apiKey uniqueId now transport data hkey]
    simp [buildContents, hbs, InlineData.truthy, bufferFrom, map_mod_eq_self bs h256]

/-- Witness for C1 at a concrete run: bytes `[0, 255]` are sent as the
second part, base64-encoded as `"AP8="`. -/
theorem generateCompletion_upstream_contents_shape_witness :
    (generateGeminiResponse "k" trG0 "id" 7 reqBytes).2 =
      [⟨"gemini-1.5-flash",
        [⟨[⟨some "No prompt provided", none⟩,
           ⟨none, some ⟨"text/plain", "AP8="⟩⟩]⟩]⟩] :=
  (generateCompletion_upstream_contents_shape "k" "id" 7 trG0 reqBytes
    (by decide)).2 [0, 255] rfl (by decide)

/-- C2: the transformed response has as many choices as the upstream
response has candidates, and each choice's `content` is the in-order,
separator-free concatenation of the text parts of the corresponding
candidate. -/
theorem transformResponse_choices_content (uniqueId : String) (now : Nat)
    (model : String) (g : GeminiResponse) :
    (transformResponse uniqueId now model g).choices.length = g.candidates.length ∧
    (transformResponse uniqueId now model g).choices.map (fun ch => ch.message.content) =
      g.candidates.map (fun c => textPartsConcat c.content.parts) := by
  refine ⟨buildChoices_length 0 g.candidates, ?_⟩
  rw [show (transformResponse uniqueId now model g).choices =
        buildChoices 0 g.candidates from rfl]
  rw [buildChoices_content_map]
  exact List.map_congr_left (fun c _ => joinTexts_eq_textPartsConcat c.content.parts)

/-- C3 counterexample: the handler uses `replace("models/", "")`, which
removes the first occurrence anywhere, not only a leading namespace
segment: `"amodels/b"` does not start with `"models/"`, so the claim says
it is returned unchanged, yet the code returns `"ab"`. -/
theorem listModels_not_leading_segment_only :
    modelNamesOf ⟨[⟨"amodels/b"⟩]⟩ = ["ab"] ∧
    stripLeadingModelsSegment "amodels/b" = "amodels/b" ∧
    modelNamesOf ⟨[⟨"amodels/b"⟩]⟩ ≠ ["amodels/b"] := by
  decide

/-- C3 amended: `listModels` preserves order and count and removes from
each identifier the first occurrence of `"models/"` anywhere in it; for an
identifier that starts with `"models/"` this is exactly the leading
namespace segment, and an identifier in which `"models/"` does not occur is
unchanged. -/
theorem listModels_first_occurrence_removed (resp : ModelsResponse) :
    (modelNamesOf resp).length = resp.models.length ∧
    modelNamesOf resp = resp.models.map (fun m => stringReplaceFirst m.name "models/") ∧
    (∀ name : String, listIsPrefixOf "models/".data name.data = true →
      stringReplaceFirst name "models/" = stripLeadingModelsSegment name) ∧
    (∀ name : String, hasOccurrence "models/".data name.data = false →
      stringReplaceFirst name "models/" = name) := by
  refine ⟨by simp [modelNamesOf], rfl, ?_, ?_⟩
  · intro name h
    rw [stringReplaceFirst, stripLeadingModelsSegment, if_pos h,
      listReplaceFirst_of_isPrefixOf name.data "models/".data h]
  · intro name h
    rw [stringReplaceFirst, listReplaceFirst_of_no_occurrence name.data "models/".data h]

/-- Witness for C3 amended, at a one-element model list whose name carries
the leading namespace segment, and at a name without any occurrence. -/
theorem listModels_first_occurrence_removed_witness :
    (modelNamesOf ⟨[⟨"models/gemini-pro"⟩]⟩).length = 1 ∧
    stringReplaceFirst "models/gemini-pro" "models/" =
      stripLeadingModelsSegment "models/gemini-pro" ∧
    stringReplaceFirst "plain" "models/" = "plain" := by
  obtain ⟨h1, _, h3, h4⟩ := listModels_first_occurrence_removed ⟨[⟨"models/gemini-pro"⟩]⟩
  exact ⟨h1, h3 "models/gemini-pro" (by decide), h4 "plain" (by decide)⟩

/-- C4: with the empty API key, both operations fail with the
configuration error and make zero upstream calls, whatever the transport
would have answered. -/
theorem missing_api_key_fails_without_calls
    (trM : Except String ModelsResponse)
    (trG : String → List Content → Except String GeminiResponse)
    (uniqueId : String) (now : Nat) (data : CompletionRequest) :
    getGeminiModels "" trM =
      (.error (.configurationError "GOOGLE_API_KEY environment variable is not set"), 0) ∧
    generateGeminiResponse "" trG uniqueId now data =
      (.error (.configurationError "GOOGLE_API_KEY environment variable is not set"), []) := by
  exact ⟨rfl, rfl⟩

/-- C5: whenever an operation fails — for any reason — the corresponding
handler answers 500 with its fixed message body. -/
theorem handlers_return_fixed_500_on_failure (apiKey : String)
    (trM : Except String ModelsResponse)
    (trG : String → List Content → Except String GeminiResponse)
    (uniqueId : String) (now : Nat) (body : CompletionRequest) :
    (∀ e, (getGeminiModels apiKey trM).1 = .error e →
      handleGetModels apiKey trM =
        ⟨500, .errorMessage "Failed to fetch Gemini models"⟩) ∧
    (∀ e, (generateGeminiResponse apiKey trG uniqueId now body).1 = .error e →
      handleChatCompletions apiKey trG uniqueId now body =
        ⟨500, .errorMessage "Failed to generate response"⟩) := by
  constructor
  · intro e h
    simp [handleGetModels, h]
  · intro e h
    simp [handleChatCompletions, h]

/-- Witness for C5: with an empty API key both operations fail and both
handlers produce the fixed 500 bodies. -/
theorem handlers_return_fixed_500_on_failure_witness :
    handleGetModels "" trM0 = ⟨500, .errorMessage "Failed to fetch Gemini models"⟩ ∧
    handleChatCompletions "" trG0 "id" 7 {} =
      ⟨500, .errorMessage "Failed to generate response"⟩ := by
  obtain ⟨h1, h2⟩ := handlers_return_fixed_500_on_failure "" trM0 trG0 "id" 7 {}
  exact ⟨h1 (.configurationError "GOOGLE_API_KEY environment variable is not set") rfl,
    h2 (.configurationError "GOOGLE_API_KEY environment variable is not set") rfl⟩

/-- C6: the input `{prompt: "Hello"}` with `model` omitted reaches the
upstream call as model `"gemini-1.5-flash"` with contents
`[{parts: [{text: "Hello"}]}]`; in general, an absent `model` defaults to
`"gemini-1.5-flash"`, an absent `prompt` to `"No prompt provided"`, and an
absent `mimeType` to `"text/plain"`. -/
theorem defaults_example_hello (apiKey uniqueId : String) (now : Nat)
    (transport : String → List Content → Except String GeminiResponse)
    (hkey : apiKey ≠ "") :
    (generateGeminiResponse apiKey transport uniqueId now { prompt := some "Hello" }).2 =
      [⟨"gemini-1.5-flash", [⟨[⟨some "Hello", none⟩]⟩]⟩] ∧
    (∀ data : CompletionRequest, data.model = none →
      resolvedModel data = "gemini-1.5-flash") ∧
    (∀ data : CompletionRequest, data.prompt = none →
      resolvedPrompt data = "No prompt provided") ∧
    (∀ data : CompletionRequest, data.mimeType = none →
      resolvedMimeType data = "text/plain") := by
  refine ⟨?_, ?_, ?_, ?_⟩
  · rw [generate_calls apiKey uniqueId now transport { prompt := some "Hello" } hkey]
    decide
  · intro data h; simp [resolvedModel, jsOr, h]
  · intro data h; simp [resolvedPrompt, jsOr, h]
  · intro data h; simp [resolvedMimeType, jsOr, h]

/-- Witness for C6 at a concrete non-empty API key. -/
theorem defaults_example_hello_witness :
    (generateGeminiResponse "k" trG0 "id" 7 { prompt := some "Hello" }).2 =
      [⟨"gemini-1.5-flash", [⟨[⟨some "Hello", none⟩]⟩]⟩] ∧
    resolvedModel {} = "gemini-1.5-flash" ∧
    resolvedPrompt {} = "No prompt provided" ∧
    resolvedMimeType {} = "text/plain" := by
  obtain ⟨h1, h2, h3, h4⟩ := defaults_example_hello "k" "id" 7 trG0 (by decide)
  exact ⟨h1, h2 {} rfl, h3 {} rfl, h4 {} rfl⟩

/-- C7: for every request — all fields absent or malformed included — the
contents built for the upstream call never contain an empty parts list. -/
theorem buildContents_parts_nonempty (data : CompletionRequest) :
    ∀ c ∈ buildContents data, c.parts ≠ [] := by
  intro c hc
  simp only [buildContents, List.mem_singleton] at hc
  subst hc
  cases h : data.inlineData with
  | none => simp
  | some d => cases htr : d.truthy <;> simp [h, htr]

/-- Witness for C7 at the all-absent request. -/
theorem buildContents_parts_nonempty_witness :
    (⟨[{ text := some "No prompt provided" }]⟩ : Content).parts ≠ [] :=
  buildContents_parts_nonempty {} ⟨[{ text := some "No prompt provided" }]⟩ (by decide)

/-- C8: every successfully produced `CompletionResponse` carries the fixed
fingerprint literal, and every choice has `refusal = null` and
`logprobs = null`. -/
theorem response_constant_fingerprint_null_fields (apiKey uniqueId : String)
    (now : Nat) (transport : String → List Content → Except String GeminiResponse)
    (data : CompletionRequest) (resp : CompletionResponse)
    (h : (generateGeminiResponse apiKey transport uniqueId now data).1 = .ok resp) :
    resp.system_fingerprint = "fp_3aa7262c27" ∧
    ∀ ch ∈ resp.choices, ch.message.refusal = none ∧ ch.logprobs = none := by
  unfold generateGeminiResponse at h
  cases hg : getGeminiTextGeneration apiKey transport (resolvedModel data)
      (buildContents data) with
  | mk r calls =>
    rw [hg] at h
    cases r with
    | ok g =>
      simp only at h
      cases h
      exact ⟨rfl, buildChoices_null_fields 0 g.candidates⟩
    | error e => simp at h

/-- Witness for C8 at a concrete successful run. -/
theorem response_constant_fingerprint_null_fields_witness :
    (transformResponse "id" 7 "gemini-1.5-flash" gResp0).system_fingerprint =
      "fp_3aa7262c27" ∧
    ∀ ch ∈ (transformResponse "id" 7 "gemini-1.5-flash" gResp0).choices,
      ch.message.refusal = none ∧ ch.logprobs = none :=
  response_constant_fingerprint_null_fields "k" "id" 7 trG0 {}
    (transformResponse "id" 7 "gemini-1.5-flash" gResp0) rfl

/-- C9 counterexample: a present but empty byte array is truthy in the
source language, so a second (empty-data) part IS added — not treated like
an absent field as the claim states. -/
theorem empty_bytes_adds_second_part :
    (buildContents reqEmptyBytes).map (fun c => c.parts.length) = [2] ∧
    buildContents reqEmptyBytes ≠ buildContents {} := by
  decide

/-- C9 amended: a present empty-string field is treated like an absent one
(`model`, `prompt`, `mimeType` are defaulted, and an empty-string
`inlineData` adds no second part), but an empty byte-array `inlineData` is
truthy and adds a second inline-data part whose payload is the empty
string. -/
theorem falsy_field_handling (dataS dataB : CompletionRequest) :
    (∀ d : String, jsOr (some "") d = d) ∧
    (dataS.inlineData = some (.str "") →
      buildContents dataS = buildContents { dataS with inlineData := none }) ∧
    (dataB.inlineData = some (.bytes []) →
      buildContents dataB =
        [⟨[⟨some (resolvedPrompt dataB), none⟩,
           ⟨none, some ⟨resolvedMimeType dataB, ""⟩⟩]⟩]) := by
  refine ⟨fun d => rfl, ?_, ?_⟩
  · intro h
    simp [buildContents, resolvedPrompt, h, InlineData.truthy]
  · intro h
    simp [buildContents, h, InlineData.truthy, bufferFrom, base64Encode]

/-- Witness for C9 amended at concrete empty-string and empty-byte-array
requests. -/
theorem falsy_field_handling_witness :
    jsOr (some "") "x" = "x" ∧
    buildContents reqEmptyStr = buildContents { reqEmptyStr with inlineData := none } ∧
    buildContents reqEmptyBytes =
      [⟨[⟨some "No prompt provided", none⟩, ⟨none, some ⟨"text/plain", ""⟩⟩]⟩] := by
  obtain ⟨h1, h2, h3⟩ := falsy_field_handling reqEmptyStr reqEmptyBytes
  exact ⟨h1 "x", h2 rfl, h3 rfl⟩

/-- C10: an upstream part without a text field contributes the empty
string to the concatenated choice content — the concatenation is total,
drops nothing else, and never renders such a part as text. -/
theorem textless_parts_contribute_empty (pre post : List UContentPart)
    (p : UContentPart) (hp : p.text = none) :
    joinTexts (pre ++ p :: post) = joinTexts (pre ++ post) ∧
    joinTexts [p] = "" := by
  have h1 : joinTexts [p] = "" := by simp [joinTexts, hp, string_empty_append]
  refine ⟨?_, h1⟩
  rw [joinTexts_append, joinTexts_append]
  have : joinTexts (p :: post) = joinTexts post := by
    simp [joinTexts, hp, string_empty_append]
  rw [this]

/-- Witness for C10 with an inline-data-only part between two text
parts. -/
theorem textless_parts_contribute_empty_witness :
    joinTexts [⟨some "a"⟩, ⟨none⟩, ⟨some "b"⟩] = joinTexts [⟨some "a"⟩, ⟨some "b"⟩] ∧
    joinTexts [(⟨none⟩ : UContentPart)] = "" :=
  textless_parts_contribute_empty [⟨some "a"⟩] [⟨some "b"⟩] ⟨none⟩ rfl

end GeminiProxy
